import Mathlib

/-!
Verification of the usage-statistics telemetry subsystem
(`great_expectations/core/logging/usage_statistics.py` and
`great_expectations/core/logging/anonymizer.py`) against its
natural-language specification.

The Python code is shallowly embedded: Python values flowing through the
telemetry pipeline are modelled by `JValue`, Python dicts by ordered
association lists with Python's insertion-order update semantics
(`lookupStr` / `pySet`), raised exceptions by `Except PyError`, and the
dispatch queue by a list of `QueueItem`s.  External collaborators
(`jsonschema.validate`, the three domain anonymizers, `platform`/`sys`)
are supplied through an explicit environment record, following the
interface boundary drawn in the specification.
-/

/-- Python exceptions that can arise in this subsystem.  `validationError`
models `jsonschema.ValidationError`; the remaining constructors model the
built-in exception classes the source code can raise or catch. -/
inductive PyError where
  | typeError (msg : String)
  | keyError (msg : String)
  | validationError (msg : String)
  | indexError
  | attributeError
  | other (msg : String)
deriving DecidableEq, Repr

/-- Python values carried inside telemetry messages. -/
inductive JValue where
  | null
  | bool (b : Bool)
  | str (s : String)
  | arr (xs : List JValue)
  | obj (fields : List (String × JValue))

/-- A telemetry message: a Python dict with string keys, in insertion order. -/
abbrev Message := List (String × JValue)

/-- Dict read: `d.get(k)` / `d[k]` key search (first matching key). -/
def lookupStr {α : Type} : List (String × α) → String → Option α
  | [], _ => none
  | (k', v) :: rest, k => if k' = k then some v else lookupStr rest k

/-- Dict write `d[k] = v`: replaces the value in place if the key is
present (keeping its position, as Python dicts do), otherwise appends the
new pair at the end. -/
def pySet {α : Type} : List (String × α) → String → α → List (String × α)
  | [], k, v => [(k, v)]
  | (k', v') :: rest, k, v =>
      if k' = k then (k', v) :: rest else (k', v') :: pySet rest k v

theorem lookupStr_pySet_self {α : Type} (d : List (String × α)) (k : String) (v : α) :
    lookupStr (pySet d k v) k = some v := by
  induction d with
  | nil => simp [pySet, lookupStr]
  | cons p rest ih =>
    by_cases h : p.1 = k
    · simp [pySet, lookupStr, h]
    · simp [pySet, lookupStr, h, ih]

theorem lookupStr_pySet_ne {α : Type} (d : List (String × α)) (k k' : String) (v : α)
    (h : k ≠ k') : lookupStr (pySet d k v) k' = lookupStr d k' := by
  induction d with
  | nil => simp [pySet, lookupStr, h]
  | cons p rest ih =>
    by_cases hp : p.1 = k
    · simp [pySet, lookupStr, hp, h]
    · simp only [pySet, if_neg hp]
      by_cases hp' : p.1 = k'
      · simp [lookupStr, hp']
      · simp [lookupStr, hp', ih]

theorem lookupStr_pySet_isSome {α : Type} (d : List (String × α)) (k k' : String) (v : α) :
    (lookupStr (pySet d k v) k').isSome ↔ k' = k ∨ (lookupStr d k').isSome := by
  by_cases h : k = k'
  · subst h; simp [lookupStr_pySet_self]
  · rw [lookupStr_pySet_ne d k k' v h]
    have : ¬ k' = k := fun hk => h hk.symm
    simp [this]

/-- An entry of the dispatch queue: either an ordinary message or the
module-level `STOP_SIGNAL` sentinel (`STOP_SIGNAL = object()`); the
sentinel is a fresh object, distinguishable from every message, which the
distinct constructor models. -/
inductive QueueItem where
  | msg (m : Message)
  | stop

/-- Whether a queue entry is the `STOP_SIGNAL` sentinel (the worker's
`message == STOP_SIGNAL` test; a dict never compares equal to the fresh
sentinel object). -/
def QueueItem.isStop : QueueItem → Bool
  | .stop => true
  | .msg _ => false

/-- `UsageStatisticsHandler._close_worker`: puts one `STOP_SIGNAL` onto
the FIFO message queue (the subsequent `join` is the wait for
`requestsWorker` to reach the sentinel and return). -/
def closeWorker (queue : List QueueItem) : List QueueItem :=
  queue ++ [QueueItem.stop]

/-- `UsageStatisticsHandler._requests_worker`, viewed on the sequence of
queue entries it dequeues: it repeatedly pops the head; on `STOP_SIGNAL`
it returns (second component `true` = thread terminated); otherwise it
POSTs the message (first component records the attempted transmissions in
order) and continues.  An exhausted list with no sentinel corresponds to
the worker blocking on an empty queue (`false` = not terminated). -/
def requestsWorker : List QueueItem → List Message × Bool
  | [] => ([], false)
  | QueueItem.stop :: _ => ([], true)
  | QueueItem.msg m :: rest =>
      let r := requestsWorker rest
      (m :: r.1, r.2)

/-- C3: for any N messages enqueued before shutdown, `_close_worker`
pushes exactly one `STOP_SIGNAL` onto the FIFO queue, and the worker
attempts transmission of all N messages, in order, before it observes the
sentinel and terminates. -/
theorem shutdown_drains_all_messages_then_stops (msgs : List Message) :
    closeWorker (msgs.map QueueItem.msg) = msgs.map QueueItem.msg ++ [QueueItem.stop] ∧
    (closeWorker (msgs.map QueueItem.msg)).countP (fun it => it.isStop) = 1 ∧
    requestsWorker (closeWorker (msgs.map QueueItem.msg)) = (msgs, true) := by
  refine ⟨rfl, ?_, ?_⟩
  · induction msgs with
    | nil => simp [closeWorker, QueueItem.isStop]
    | cons m rest ih =>
      simp only [closeWorker, List.map_cons, List.cons_append, List.countP_cons] at ih ⊢
      simp only [QueueItem.isStop] at ih ⊢
      simp
  · induction msgs with
    | nil => simp [closeWorker, requestsWorker]
    | cons m rest ih =>
      simp only [closeWorker, List.map_cons, List.cons_append, requestsWorker] at ih ⊢
      simp [ih]

/-! ## The anonymizer (`anonymizer.py`)

`Anonymizer.anonymize` concatenates the salt with the input string,
UTF-8-encodes the result and returns the MD5 digest in hexadecimal.  MD5
is implemented here in full over byte lists (`List Nat`, each byte
`< 256`), with 32-bit words as `Nat` reduced `% 2^32`. -/

/-- UTF-8 encoding of one character (`str.encode('utf-8')`, per code point). -/
def charUtf8 (c : Char) : List Nat :=
  let n := c.toNat
  if n < 0x80 then [n]
  else if n < 0x800 then
    [0xC0 ||| (n >>> 6), 0x80 ||| (n &&& 0x3F)]
  else if n < 0x10000 then
    [0xE0 ||| (n >>> 12), 0x80 ||| ((n >>> 6) &&& 0x3F), 0x80 ||| (n &&& 0x3F)]
  else
    [0xF0 ||| (n >>> 18), 0x80 ||| ((n >>> 12) &&& 0x3F),
     0x80 ||| ((n >>> 6) &&& 0x3F), 0x80 ||| (n &&& 0x3F)]

/-- UTF-8 encoding of a string as a byte list. -/
def utf8Bytes (s : String) : List Nat :=
  s.data.flatMap charUtf8

/-- The 64 MD5 round constants `K[i] = floor(2^32 * |sin(i+1)|)`. -/
def md5K : List Nat :=
  [0xd76aa478, 0xe8c7b756, 0x242070db, 0xc1bdceee,
   0xf57c0faf, 0x4787c62a, 0xa8304613, 0xfd469501,
   0x698098d8, 0x8b44f7af, 0xffff5bb1, 0x895cd7be,
   0x6b901122, 0xfd987193, 0xa679438e, 0x49b40821,
   0xf61e2562, 0xc040b340, 0x265e5a51, 0xe9b6c7aa,
   0xd62f105d, 0x02441453, 0xd8a1e681, 0xe7d3fbc8,
   0x21e1cde6, 0xc33707d6, 0xf4d50d87, 0x455a14ed,
   0xa9e3e905, 0xfcefa3f8, 0x676f02d9, 0x8d2a4c8a,
   0xfffa3942, 0x8771f681, 0x6d9d6122, 0xfde5380c,
   0xa4beea44, 0x4bdecfa9, 0xf6bb4b60, 0xbebfbc70,
   0x289b7ec6, 0xeaa127fa, 0xd4ef3085, 0x04881d05,
   0xd9d4d039, 0xe6db99e5, 0x1fa27cf8, 0xc4ac5665,
   0xf4292244, 0x432aff97, 0xab9423a7, 0xfc93a039,
   0x655b59c3, 0x8f0ccc92, 0xffeff47d, 0x85845dd1,
   0x6fa87e4f, 0xfe2ce6e0, 0xa3014314, 0x4e0811a1,
   0xf7537e82, 0xbd3af235, 0x2ad7d2bb, 0xeb86d391]

/-- The per-round left-rotation amounts of MD5. -/
def md5S : List Nat :=
  [7, 12, 17, 22, 7, 12, 17, 22, 7, 12, 17, 22, 7, 12, 17, 22,
   5, 9, 14, 20, 5, 9, 14, 20, 5, 9, 14, 20, 5, 9, 14, 20,
   4, 11, 16, 23, 4, 11, 16, 23, 4, 11, 16, 23, 4, 11, 16, 23,
   6, 10, 15, 21, 6, 10, 15, 21, 6, 10, 15, 21, 6, 10, 15, 21]

/-- Left rotation of a 32-bit word (represented as a `Nat < 2^32`). -/
def rotl32 (x s : Nat) : Nat :=
  ((x <<< s) ||| (x >>> (32 - s))) % 4294967296

/-- Bitwise complement within 32 bits. -/
def not32 (x : Nat) : Nat := 4294967295 ^^^ x

/-- The `g`-th little-endian 32-bit word of a 64-byte chunk. -/
def chunkWord (chunk : List Nat) (g : Nat) : Nat :=
  chunk.getD (4 * g) 0 + chunk.getD (4 * g + 1) 0 * 256 +
    chunk.getD (4 * g + 2) 0 * 65536 + chunk.getD (4 * g + 3) 0 * 16777216

/-- One of the 64 MD5 rounds, acting on the state `(a, b, c, d)`. -/
def md5Step (chunk : List Nat) (st : Nat × Nat × Nat × Nat) (i : Nat) :
    Nat × Nat × Nat × Nat :=
  let a := st.1
  let b := st.2.1
  let c := st.2.2.1
  let d := st.2.2.2
  let fg : Nat × Nat :=
    if i < 16 then ((b &&& c) ||| (not32 b &&& d), i)
    else if i < 32 then ((d &&& b) ||| (not32 d &&& c), (5 * i + 1) % 16)
    else if i < 48 then (b ^^^ c ^^^ d, (3 * i + 5) % 16)
    else (c ^^^ (b ||| not32 d), (7 * i) % 16)
  let f := (fg.1 + a + md5K.getD i 0 + chunkWord chunk fg.2) % 4294967296
  (d, (b + rotl32 f (md5S.getD i 0)) % 4294967296, b, c)

/-- Processing of one 64-byte chunk: 64 rounds, then addition of the
incoming state, word-wise mod `2^32`. -/
def md5Chunk (st : Nat × Nat × Nat × Nat) (chunk : List Nat) :
    Nat × Nat × Nat × Nat :=
  let r := (List.range 64).foldl (md5Step chunk) st
  ((st.1 + r.1) % 4294967296, (st.2.1 + r.2.1) % 4294967296,
   (st.2.2.1 + r.2.2.1) % 4294967296, (st.2.2.2 + r.2.2.2) % 4294967296)

/-- MD5 padding: a `0x80` byte, zeros up to 56 mod 64, then the original
bit length as a little-endian 64-bit quantity. -/
def md5Pad (msg : List Nat) : List Nat :=
  let zeros := (120 - ((msg.length + 1) % 64)) % 64
  let bitLen := (8 * msg.length) % 18446744073709551616
  msg ++ [0x80] ++ List.replicate zeros 0 ++
    [bitLen % 256, (bitLen >>> 8) % 256, (bitLen >>> 16) % 256,
     (bitLen >>> 24) % 256, (bitLen >>> 32) % 256, (bitLen >>> 40) % 256,
     (bitLen >>> 48) % 256, (bitLen >>> 56) % 256]

/-- Splitting into 64-byte chunks (fuel-indexed so that the recursion is
structural; `fuel = l.length` always suffices since every step drops at
least one element of a non-empty list). -/
def toBlocksAux : Nat → List Nat → List (List Nat)
  | 0, _ => []
  | _ + 1, [] => []
  | fuel + 1, x :: xs => (x :: xs).take 64 :: toBlocksAux fuel ((x :: xs).drop 64)

def toBlocks (l : List Nat) : List (List Nat) :=
  toBlocksAux l.length l

/-- The little-endian 4-byte serialization of a 32-bit word. -/
def wordLE (w : Nat) : List Nat :=
  [w % 256, (w >>> 8) % 256, (w >>> 16) % 256, (w >>> 24) % 256]

/-- The 16-byte MD5 digest of a byte string. -/
def md5Bytes (msg : List Nat) : List Nat :=
  let st := (toBlocks (md5Pad msg)).foldl md5Chunk
    (0x67452301, 0xefcdab89, 0x98badcfe, 0x10325476)
  wordLE st.1 ++ wordLE st.2.1 ++ wordLE st.2.2.1 ++ wordLE st.2.2.2

/-- The sixteen lowercase hexadecimal digits. -/
def hexChars : List Char := "0123456789abcdef".data

def hexDigit (n : Nat) : Char := hexChars.getD (n % 16) '0'

/-- Two-character lowercase rendering of one byte (`%02x`). -/
def hexByte (b : Nat) : List Char := [hexDigit (b / 16), hexDigit (b % 16)]

/-- `hashlib`'s `.hexdigest()`: the digest bytes in lowercase hexadecimal. -/
def hexdigest (bytes : List Nat) : String :=
  ⟨bytes.flatMap hexByte⟩

/-- `Anonymizer.anonymize`: `md5((self._salt + string_).encode('utf-8')).hexdigest()`. -/
def anonymize (salt string_ : String) : String :=
  hexdigest (md5Bytes (utf8Bytes (salt ++ string_)))

theorem md5Bytes_length (msg : List Nat) : (md5Bytes msg).length = 16 := by
  simp [md5Bytes, wordLE]

theorem hexDigit_mem_hexChars (n : Nat) : hexDigit n ∈ hexChars := by
  have h : n % 16 < hexChars.length := by
    have : n % 16 < 16 := Nat.mod_lt _ (by norm_num)
    simpa [hexChars] using this
  rw [hexDigit, hexChars.getD_eq_getElem '0' h]
  exact hexChars.getElem_mem h

theorem flatMap_hexByte_length (l : List Nat) :
    (l.flatMap hexByte).length = 2 * l.length := by
  induction l with
  | nil => simp
  | cons b rest ih =>
    simp [List.flatMap_cons, hexByte, ih]
    ring

/-- C6: `anonymize` is the 128-bit (16-byte) MD5 digest of the
concatenation of salt and value, rendered as a 32-character string of
lowercase hexadecimal digits, and it is a pure function of
`(salt, value)`: equal arguments always yield the same digest. -/
theorem anonymize_is_md5_hex_of_salt_and_value (salt value : String) :
    anonymize salt value = hexdigest (md5Bytes (utf8Bytes (salt ++ value))) ∧
    (md5Bytes (utf8Bytes (salt ++ value))).length = 16 ∧
    (anonymize salt value).length = 32 ∧
    (∀ c ∈ (anonymize salt value).data, c ∈ hexChars) ∧
    (∀ salt' value' : String, salt = salt' → value = value' →
      anonymize salt value = anonymize salt' value') := by
  refine ⟨rfl, md5Bytes_length _, ?_, ?_, ?_⟩
  · show (hexdigest (md5Bytes (utf8Bytes (salt ++ value)))).length = 32
    rw [hexdigest]
    show ((md5Bytes (utf8Bytes (salt ++ value))).flatMap hexByte).length = 32
    rw [flatMap_hexByte_length, md5Bytes_length]
  · intro c hc
    have hc' : c ∈ (md5Bytes (utf8Bytes (salt ++ value))).flatMap hexByte := hc
    rcases List.mem_flatMap.mp hc' with ⟨b, _, hb⟩
    simp only [hexByte, List.mem_cons, List.not_mem_nil, or_false] at hb
    rcases hb with h | h <;> exact h ▸ hexDigit_mem_hexChars _
  · intro salt' value' h1 h2
    rw [h1, h2]

/-- Witness for the C6 theorem at a concrete salt and value. -/
theorem anonymize_is_md5_hex_witness :
    (anonymize "data_context_id_" "my_datasource").length = 32 ∧
    anonymize "data_context_id_" "my_datasource" =
      anonymize "data_context_id_" "my_datasource" :=
  ⟨(anonymize_is_md5_hex_of_salt_and_value "data_context_id_" "my_datasource").2.2.1,
   (anonymize_is_md5_hex_of_salt_and_value "data_context_id_"
      "my_datasource").2.2.2.2 _ _ rfl rfl⟩

/-! ## `Anonymizer.anonymize_object_info`

Python classes are modelled by their names together with an `issubclass`
oracle `sub : String → String → Bool` (`sub c d` = "the class named `c`
is a subclass of the class named `d`"); `object_class == ge_class` is
name equality.  The `anonymized_info_dict` argument is a string-valued
dict. -/

/-- The `for ge_class in ge_classes` loop of `anonymize_object_info`:
at the first `geClass` with `issubclass(object_class, ge_class)` it sets
`parent_class`, sets `anonymized_class` unless the classes are equal, and
breaks. -/
def aoiLoop (salt : String) (sub : String → String → Bool) (objectClassName : String) :
    List String → List (String × String) → List (String × String)
  | [], info => info
  | geClass :: rest, info =>
      if sub objectClassName geClass then
        if objectClassName = geClass then pySet info "parent_class" geClass
        else
          pySet (pySet info "parent_class" geClass)
            "anonymized_class" (anonymize salt objectClassName)
      else aoiLoop salt sub objectClassName rest info

/-- Python truthiness of `dict.get("parent_class")` for a string-valued
dict: a missing key (`None`) and the empty string are falsy. -/
def truthy : Option String → Bool
  | none => false
  | some s => if s = "" then false else true

/-- `Anonymizer.anonymize_object_info`: the recognition loop followed by
the `if not anonymized_info_dict.get("parent_class")` fallback branch. -/
def anonymize_object_info (salt : String) (sub : String → String → Bool)
    (objectClassName : String) (anonymizedInfoDict : List (String × String))
    (geClasses : List String) : List (String × String) :=
  if truthy (lookupStr (aoiLoop salt sub objectClassName geClasses anonymizedInfoDict)
      "parent_class") then
    aoiLoop salt sub objectClassName geClasses anonymizedInfoDict
  else
    pySet (pySet (aoiLoop salt sub objectClassName geClasses anonymizedInfoDict)
        "parent_class" "__not_recognized__")
      "anonymized_class" (anonymize salt objectClassName)

theorem aoiLoop_find_none (salt : String) (sub : String → String → Bool)
    (objectClassName : String) (geClasses : List String)
    (info : List (String × String))
    (hfind : geClasses.find? (sub objectClassName) = none) :
    aoiLoop salt sub objectClassName geClasses info = info := by
  induction geClasses with
  | nil => rfl
  | cons g rest ih =>
    rw [List.find?_cons] at hfind
    by_cases hg : sub objectClassName g
    · simp [hg] at hfind
    · simp only [hg, cond_false] at hfind
      simp only [aoiLoop, hg, if_false, Bool.false_eq_true]
      exact ih hfind

theorem aoiLoop_find_some (salt : String) (sub : String → String → Bool)
    (objectClassName c : String) (geClasses : List String)
    (info : List (String × String))
    (hfind : geClasses.find? (sub objectClassName) = some c)
    (ha : lookupStr info "anonymized_class" = none) :
    lookupStr (aoiLoop salt sub objectClassName geClasses info) "parent_class" = some c ∧
    lookupStr (aoiLoop salt sub objectClassName geClasses info) "anonymized_class" =
      (if objectClassName = c then none else some (anonymize salt objectClassName)) := by
  induction geClasses with
  | nil => simp at hfind
  | cons g rest ih =>
    rw [List.find?_cons] at hfind
    by_cases hg : sub objectClassName g
    · simp only [hg, cond_true, Option.some.injEq] at hfind
      subst hfind
      simp only [aoiLoop, hg, if_true]
      by_cases he : objectClassName = g
      · subst he
        simp only [eq_self_iff_true, if_true]
        refine ⟨lookupStr_pySet_self _ _ _, ?_⟩
        rw [lookupStr_pySet_ne _ _ _ _ (by decide)]
        exact ha
      · simp only [if_neg he]
        constructor
        · rw [lookupStr_pySet_ne _ _ _ _ (by decide), lookupStr_pySet_self]
        · rw [lookupStr_pySet_self]
    · simp only [hg, cond_false] at hfind
      simp only [aoiLoop, hg, if_false, Bool.false_eq_true]
      exact ih hfind

/-- C5 (amended): starting from an info dict that does not yet carry
`parent_class` or `anonymized_class` entries, `anonymize_object_info`
sets `parent_class` to the name of the first recognized class the
object's class is a subclass of, omitting `anonymized_class` exactly when
the object's class equals that recognized class — provided that first
matching name is non-empty.  When no recognized class matches, or when
the matching class's name is the empty string (which Python's truthiness
test treats like a missing key), the fallback branch fires:
`parent_class` becomes `"__not_recognized__"` and `anonymized_class` is
populated with the anonymized class name. -/
theorem anonymize_object_info_classification (salt : String)
    (sub : String → String → Bool) (objectClassName : String)
    (info : List (String × String)) (geClasses : List String)
    (hp : lookupStr info "parent_class" = none)
    (ha : lookupStr info "anonymized_class" = none) :
    (∀ c, geClasses.find? (sub objectClassName) = some c → c ≠ "" →
      lookupStr (anonymize_object_info salt sub objectClassName info geClasses)
          "parent_class" = some c ∧
      lookupStr (anonymize_object_info salt sub objectClassName info geClasses)
          "anonymized_class" =
        (if objectClassName = c then none else some (anonymize salt objectClassName))) ∧
    ((geClasses.find? (sub objectClassName) = none ∨
      geClasses.find? (sub objectClassName) = some "") →
      lookupStr (anonymize_object_info salt sub objectClassName info geClasses)
          "parent_class" = some "__not_recognized__" ∧
      lookupStr (anonymize_object_info salt sub objectClassName info geClasses)
          "anonymized_class" = some (anonymize salt objectClassName)) := by
  constructor
  · intro c hfind hc
    have hspec := aoiLoop_find_some salt sub objectClassName c geClasses info hfind ha
    unfold anonymize_object_info
    rw [hspec.1]
    simpa [truthy, hc] using hspec
  · intro hcase
    unfold anonymize_object_info
    rcases hcase with hnone | hempty
    · rw [aoiLoop_find_none salt sub objectClassName geClasses info hnone, hp]
      simp only [truthy, Bool.false_eq_true, if_false]
      refine ⟨?_, lookupStr_pySet_self _ _ _⟩
      rw [lookupStr_pySet_ne _ _ _ _ (by decide), lookupStr_pySet_self]
    · have hspec := aoiLoop_find_some salt sub objectClassName "" geClasses info hempty ha
      rw [hspec.1]
      simp only [truthy, eq_self_iff_true, if_true, Bool.false_eq_true, if_false]
      refine ⟨?_, lookupStr_pySet_self _ _ _⟩
      rw [lookupStr_pySet_ne _ _ _ _ (by decide), lookupStr_pySet_self]

set_option maxRecDepth 8000 in
/-- C5 counterexample: the claim as stated fails on the code in two ways.
With recognized-class list `[""]` and an object whose class is exactly
that class (Python allows a class whose `__name__` is the empty string),
the loop matches first class `""` and, per the claim, `parent_class`
should be `""` with `anonymized_class` omitted; but the fallback's
truthiness test treats the empty name as missing, so the code yields
`"__not_recognized__"` and populates `anonymized_class`.  And with no
matching recognized class but an incoming info dict already carrying
`parent_class = "X"`, the claim demands `"__not_recognized__"` with
`anonymized_class` populated, while the code leaves the dict untouched. -/
theorem anonymize_object_info_claim_counterexample :
    ([""].find? ((fun a b => a == b) "") = some "" ∧
      lookupStr (anonymize_object_info "s" (fun a b => a == b) "" [] [""])
        "parent_class" = some "__not_recognized__" ∧
      (lookupStr (anonymize_object_info "s" (fun a b => a == b) "" [] [""])
        "anonymized_class").isSome = true) ∧
    ([].find? ((fun a b => a == b) "Y") = none ∧
      lookupStr (anonymize_object_info "s" (fun a b => a == b) "Y"
        [("parent_class", "X")] []) "parent_class" = some "X" ∧
      lookupStr (anonymize_object_info "s" (fun a b => a == b) "Y"
        [("parent_class", "X")] []) "anonymized_class" = none) := by
  refine ⟨⟨rfl, ?_, ?_⟩, rfl, rfl, rfl⟩ <;> rfl

/-- Witness for the amended C5 theorem: a two-element recognized-class
list `["Base", "Other"]`, an object of class `"Sub"` that is a subclass
of `"Base"` only; the first match wins, `parent_class = "Base"`, and
since the classes differ `anonymized_class` holds the anonymized name. -/
theorem anonymize_object_info_classification_witness :
    lookupStr (anonymize_object_info "abc"
        (fun a b => a == b || (a == "Sub" && b == "Base")) "Sub" []
        ["Base", "Other"]) "parent_class" = some "Base" ∧
    lookupStr (anonymize_object_info "abc"
        (fun a b => a == b || (a == "Sub" && b == "Base")) "Sub" []
        ["Base", "Other"]) "anonymized_class" = some (anonymize "abc" "Sub") := by
  have h := (anonymize_object_info_classification "abc"
    (fun a b => a == b || (a == "Sub" && b == "Base")) "Sub" []
    ["Base", "Other"] rfl rfl).1 "Base" rfl (by decide)
  simpa using h

/-! ## The message envelope builder (`UsageStatisticsHandler.build_envelope`)

`datetime.datetime.utcnow()` is modelled as a record of broken-down UTC
time fields; `strftime("%Y-%m-%dT%H:%M:%S.%f")` renders them with
zero-padded fixed widths (4/2/2/2/2/2/6, which is what `strftime` prints
for field values within `datetime`'s documented ranges), and the source's
`[:-3] + "Z"` truncation is string slicing on the character list. -/

structure PyDatetime where
  year : Nat
  month : Nat
  day : Nat
  hour : Nat
  minute : Nat
  second : Nat
  microsecond : Nat

def pad2 (n : Nat) : List Char := [Nat.digitChar (n / 10), Nat.digitChar (n % 10)]

def pad3 (n : Nat) : List Char :=
  [Nat.digitChar (n / 100), Nat.digitChar (n / 10 % 10), Nat.digitChar (n % 10)]

def pad4 (n : Nat) : List Char :=
  [Nat.digitChar (n / 1000), Nat.digitChar (n / 100 % 10),
   Nat.digitChar (n / 10 % 10), Nat.digitChar (n % 10)]

def pad6 (n : Nat) : List Char :=
  [Nat.digitChar (n / 100000), Nat.digitChar (n / 10000 % 10),
   Nat.digitChar (n / 1000 % 10), Nat.digitChar (n / 100 % 10),
   Nat.digitChar (n / 10 % 10), Nat.digitChar (n % 10)]

/-- `utcnow().strftime("%Y-%m-%dT%H:%M:%S.%f")` as a character list. -/
def strftimeChars (dt : PyDatetime) : List Char :=
  pad4 dt.year ++ '-' :: pad2 dt.month ++ '-' :: pad2 dt.day ++
    'T' :: pad2 dt.hour ++ ':' :: pad2 dt.minute ++ ':' :: pad2 dt.second ++
    '.' :: pad6 dt.microsecond

/-- `strftime(...)[:-3] + "Z"`: drop the last three (sub-millisecond)
digits and append the literal `Z`. -/
def eventTimeChars (dt : PyDatetime) : List Char :=
  (strftimeChars dt).take ((strftimeChars dt).length - 3) ++ ['Z']

def eventTimeStr (dt : PyDatetime) : String := ⟨eventTimeChars dt⟩

/-- The identity fields a handler stamps onto each envelope
(`self._data_context_id`, `self._data_context_instance_id`,
`self._ge_version`). -/
structure HandlerCtx where
  dataContextId : String
  dataContextInstanceId : String
  geVersion : String

/-- `UsageStatisticsHandler.build_envelope`: the five in-place dict
writes, in source order. -/
def build_envelope (ctx : HandlerCtx) (dt : PyDatetime) (message : Message) : Message :=
  pySet (pySet (pySet (pySet (pySet message
    "version" (JValue.str "1.0.0"))
    "event_time" (JValue.str (eventTimeStr dt)))
    "data_context_id" (JValue.str ctx.dataContextId))
    "data_context_instance_id" (JValue.str ctx.dataContextInstanceId))
    "ge_version" (JValue.str ctx.geVersion)

/-- The five protocol fields added by `build_envelope`. -/
def envelopeKeys : List String :=
  ["version", "event_time", "data_context_id", "data_context_instance_id", "ge_version"]

theorem digitChar_isDigit {n : Nat} (h : n < 10) : (Nat.digitChar n).isDigit = true := by
  interval_cases n <;> decide

/-- C8: `build_envelope` adds exactly the five protocol fields —
`version = "1.0.0"`, `event_time`, `data_context_id`,
`data_context_instance_id`, `ge_version` — leaving every other key of the
message unchanged; `event_time` has the shape
`YYYY-MM-DDTHH:MM:SS.mmmZ` (24 characters, digits at the numeric
positions, milliseconds obtained by truncating the microsecond field, a
literal trailing `Z`); and a repeated call overwrites `event_time` with
the instant of the second call. -/
theorem build_envelope_spec (ctx : HandlerCtx) (dt dt2 : PyDatetime) (msg : Message)
    (hy : dt.year < 10000) (hmo : dt.month ≤ 12) (hd : dt.day ≤ 31)
    (hh : dt.hour < 24) (hmi : dt.minute < 60) (hs : dt.second < 60)
    (hus : dt.microsecond < 1000000) :
    lookupStr (build_envelope ctx dt msg) "version" = some (JValue.str "1.0.0") ∧
    lookupStr (build_envelope ctx dt msg) "event_time" =
      some (JValue.str (eventTimeStr dt)) ∧
    lookupStr (build_envelope ctx dt msg) "data_context_id" =
      some (JValue.str ctx.dataContextId) ∧
    lookupStr (build_envelope ctx dt msg) "data_context_instance_id" =
      some (JValue.str ctx.dataContextInstanceId) ∧
    lookupStr (build_envelope ctx dt msg) "ge_version" =
      some (JValue.str ctx.geVersion) ∧
    (∀ k, k ∉ envelopeKeys →
      lookupStr (build_envelope ctx dt msg) k = lookupStr msg k) ∧
    (∀ k, (lookupStr (build_envelope ctx dt msg) k).isSome ↔
      k ∈ envelopeKeys ∨ (lookupStr msg k).isSome) ∧
    eventTimeChars dt =
      pad4 dt.year ++ '-' :: pad2 dt.month ++ '-' :: pad2 dt.day ++
        'T' :: pad2 dt.hour ++ ':' :: pad2 dt.minute ++ ':' :: pad2 dt.second ++
        '.' :: pad3 (dt.microsecond / 1000) ++ ['Z'] ∧
    (eventTimeChars dt).length = 24 ∧
    (∀ c ∈ eventTimeChars dt, c.isDigit = true ∨ c ∈ ['-', 'T', ':', '.', 'Z']) ∧
    lookupStr (build_envelope ctx dt2 (build_envelope ctx dt msg)) "event_time" =
      some (JValue.str (eventTimeStr dt2)) := by
  refine ⟨?_, ?_, ?_, ?_, ?_, ?_, ?_, ?_, ?_, ?_, ?_⟩
  · simp only [build_envelope]
    rw [lookupStr_pySet_ne _ _ _ _ (by decide), lookupStr_pySet_ne _ _ _ _ (by decide),
      lookupStr_pySet_ne _ _ _ _ (by decide), lookupStr_pySet_ne _ _ _ _ (by decide),
      lookupStr_pySet_self]
  · simp only [build_envelope]
    rw [lookupStr_pySet_ne _ _ _ _ (by decide), lookupStr_pySet_ne _ _ _ _ (by decide),
      lookupStr_pySet_ne _ _ _ _ (by decide), lookupStr_pySet_self]
  · simp only [build_envelope]
    rw [lookupStr_pySet_ne _ _ _ _ (by decide), lookupStr_pySet_ne _ _ _ _ (by decide),
      lookupStr_pySet_self]
  · simp only [build_envelope]
    rw [lookupStr_pySet_ne _ _ _ _ (by decide), lookupStr_pySet_self]
  · simp only [build_envelope]
    rw [lookupStr_pySet_self]
  · intro k hk
    simp only [envelopeKeys, List.mem_cons, List.not_mem_nil, or_false, not_or] at hk
    obtain ⟨h1, h2, h3, h4, h5⟩ := hk
    simp only [build_envelope]
    rw [lookupStr_pySet_ne _ _ _ _ (Ne.symm h5), lookupStr_pySet_ne _ _ _ _ (Ne.symm h4),
      lookupStr_pySet_ne _ _ _ _ (Ne.symm h3), lookupStr_pySet_ne _ _ _ _ (Ne.symm h2),
      lookupStr_pySet_ne _ _ _ _ (Ne.symm h1)]
  · intro k
    simp only [build_envelope, lookupStr_pySet_isSome, envelopeKeys, List.mem_cons,
      List.not_mem_nil, or_false]
    tauto
  · simp [eventTimeChars, strftimeChars, pad4, pad2, pad6, pad3, Nat.div_div_eq_div_mul]
  · simp [eventTimeChars, strftimeChars, pad4, pad2, pad6]
  · intro c hc
    simp [eventTimeChars, strftimeChars, pad4, pad2, pad6, pad3] at hc
    rcases hc with rfl|rfl|rfl|rfl|rfl|rfl|rfl|rfl|rfl|rfl|rfl|rfl|rfl|rfl|rfl|rfl|rfl|rfl|rfl|rfl|rfl|rfl|rfl|rfl <;>
      first
        | exact Or.inl (digitChar_isDigit (by omega))
        | (right; decide)
  · conv_lhs => rw [build_envelope]
    rw [lookupStr_pySet_ne _ _ _ _ (by decide), lookupStr_pySet_ne _ _ _ _ (by decide),
      lookupStr_pySet_ne _ _ _ _ (by decide), lookupStr_pySet_self]

/-- Witness for the C8 theorem at a concrete handler identity, message
and instant: the stamped fields and the overwritten `event_time` of a
repeated call, evaluated concretely. -/
theorem build_envelope_spec_witness :
    lookupStr (build_envelope ⟨"dcid", "iid", "0.9.7"⟩ ⟨2020, 1, 2, 3, 4, 5, 678901⟩
      [("event", JValue.str "e"), ("event_payload", JValue.obj []),
       ("success", JValue.bool true)]) "version" = some (JValue.str "1.0.0") ∧
    lookupStr (build_envelope ⟨"dcid", "iid", "0.9.7"⟩ ⟨2020, 1, 2, 3, 4, 5, 678901⟩
      [("event", JValue.str "e"), ("event_payload", JValue.obj []),
       ("success", JValue.bool true)]) "event_time" =
      some (JValue.str (eventTimeStr ⟨2020, 1, 2, 3, 4, 5, 678901⟩)) ∧
    lookupStr (build_envelope ⟨"dcid", "iid", "0.9.7"⟩ ⟨2021, 12, 31, 23, 59, 59, 999999⟩
      (build_envelope ⟨"dcid", "iid", "0.9.7"⟩ ⟨2020, 1, 2, 3, 4, 5, 678901⟩
        [("event", JValue.str "e"), ("event_payload", JValue.obj []),
         ("success", JValue.bool true)])) "event_time" =
      some (JValue.str (eventTimeStr ⟨2021, 12, 31, 23, 59, 59, 999999⟩)) := by
  have h := build_envelope_spec ⟨"dcid", "iid", "0.9.7"⟩ ⟨2020, 1, 2, 3, 4, 5, 678901⟩
    ⟨2021, 12, 31, 23, 59, 59, 999999⟩
    [("event", JValue.str "e"), ("event_payload", JValue.obj []),
     ("success", JValue.bool true)]
    (by norm_num) (by norm_num) (by norm_num) (by norm_num) (by norm_num)
    (by norm_num) (by norm_num)
  exact ⟨h.1, h.2.1, h.2.2.2.2.2.2.2.2.2.2⟩

/-! ## The dispatcher: `validate_message` and `emit`

External collaborators are supplied through a `TelemetryEnv`:
`platform.system()` / `platform.release()` / `str(sys.version_info)` as
strings, the data context's three collections together with the three
domain anonymizers as fallible functions, and `jsonschema.validate` as a
fallible check (`.ok ()` = the document validates; per the
specification's interface for the validator, a failed structural
validation raises `jsonschema.ValidationError`). -/

/-- A JSON-schema document, opaque here.  Modelled from the spec: the
concrete `usage_statistics_record_schema` document lives in
`great_expectations/core/logging/schemas.py`, which is outside the
reviewed sources; its content only ever reaches `jsonschema.validate`,
which is itself modelled as the `jsValidate` environment field. -/
def Schema := String

def usage_statistics_record_schema : Schema := "usage_statistics_record_schema"

def PyError.isValidationError : PyError → Bool
  | .validationError _ => true
  | _ => false

structure TelemetryEnv where
  platformSystem : String
  platformRelease : String
  versionInfo : String
  datasources : List String
  stores : List (String × String)
  validationOperators : List (String × String)
  anonymizeDatasourceInfo : String → Except PyError JValue
  anonymizeStoreInfo : String × String → Except PyError JValue
  anonymizeValidationOperatorInfo : String × String → Except PyError JValue
  jsValidate : Message → Schema → Except PyError Unit

/-- `UsageStatisticsHandler.validate_message`: `jsonschema.validate`
inside `try`, with `except jsonschema.ValidationError` returning `False`
(and a debug log); a passing validation returns `True`. -/
def validate_message (env : TelemetryEnv) (message : Message) (schema : Schema) :
    Except PyError Bool :=
  match env.jsValidate message schema with
  | .ok () => .ok true
  | .error e => if e.isValidationError then .ok false else .error e

/-- A Python list comprehension over a fallible element function: each
element is evaluated in order and the first raised exception propagates. -/
def mapE {α β : Type} (f : α → Except PyError β) : List α → Except PyError (List β)
  | [] => .ok []
  | x :: xs =>
      match f x with
      | .error e => .error e
      | .ok y =>
          match mapE f xs with
          | .error e => .error e
          | .ok ys => .ok (y :: ys)

theorem mapE_ok_length_and_get {α β : Type} (f : α → Except PyError β)
    (xs : List α) (ys : List β) (h : mapE f xs = .ok ys) :
    ys.length = xs.length ∧ ∀ i (h1 : i < xs.length) (h2 : i < ys.length),
      f (xs.get ⟨i, h1⟩) = .ok (ys.get ⟨i, h2⟩) := by
  induction xs generalizing ys with
  | nil =>
    simp only [mapE] at h
    cases h
    exact ⟨rfl, fun i h1 _ => absurd h1 (Nat.not_lt_zero i)⟩
  | cons x xs ih =>
    simp only [mapE] at h
    cases hfx : f x with
    | error e => rw [hfx] at h; cases h
    | ok y =>
      rw [hfx] at h
      cases hm : mapE f xs with
      | error e => rw [hm] at h; cases h
      | ok ys' =>
        rw [hm] at h
        cases h
        obtain ⟨hlen, hget⟩ := ih ys' hm
        refine ⟨by simp [hlen], ?_⟩
        intro i h1 h2
        cases i with
        | zero => simpa using hfx
        | succ n =>
          simp only [List.get_cons_succ]
          exact hget n (Nat.lt_of_succ_lt_succ h1) (Nat.lt_of_succ_lt_succ h2)

/-- The dict literal returned by `build_init_payload`, given the three
already-anonymized collections. -/
def initPayloadObj (env : TelemetryEnv) (ds sts vos : List JValue) : JValue :=
  JValue.obj
    [("platform.system", JValue.str env.platformSystem),
     ("platform.release", JValue.str env.platformRelease),
     ("version_info", JValue.str env.versionInfo),
     ("anonymized_datasources", JValue.arr ds),
     ("anonymized_stores", JValue.arr sts),
     ("anonymized_validation_operators", JValue.arr vos)]

/-- `UsageStatisticsHandler.build_init_payload`: platform information and
the three anonymized collections, with the dict-literal entries evaluated
in source order. -/
def build_init_payload (env : TelemetryEnv) : Except PyError JValue :=
  match mapE env.anonymizeDatasourceInfo env.datasources with
  | .error e => .error e
  | .ok ds =>
      match mapE env.anonymizeStoreInfo env.stores with
      | .error e => .error e
      | .ok sts =>
          match mapE env.anonymizeValidationOperatorInfo env.validationOperators with
          | .error e => .error e
          | .ok vos => .ok (initPayloadObj env ds sts vos)

/-- Python `==` between a dict value and a string literal: true exactly
for an equal string. -/
def jStrEq : JValue → String → Bool
  | .str t, s => t == s
  | _, _ => false

/-- The body of `UsageStatisticsHandler.emit`'s `try` block:
`message["event"]` lookup (a missing key raises `KeyError`), the
init-event payload enrichment, `build_envelope`, `validate_message`, and
on success the queue put; the returned pair carries the new queue and the
enveloped message. -/
def emitAttempt (env : TelemetryEnv) (ctx : HandlerCtx) (dt : PyDatetime)
    (queue : List QueueItem) (message : Message) :
    Except PyError (List QueueItem × Message) :=
  match lookupStr message "event" with
  | none => .error (.keyError "event")
  | some ev =>
      match (if jStrEq ev "data_context.__init__" then
               (build_init_payload env).map (fun p => pySet message "event_payload" p)
             else .ok message) with
      | .error e => .error e
      | .ok m1 =>
          match validate_message env (build_envelope ctx dt m1)
              usage_statistics_record_schema with
          | .error e => .error e
          | .ok true =>
              .ok (queue ++ [QueueItem.msg (build_envelope ctx dt m1)],
                build_envelope ctx dt m1)
          | .ok false => .ok (queue, build_envelope ctx dt m1)

/-- `UsageStatisticsHandler.emit`: the `try` body wrapped in
`except Exception: pass` — every exception is discarded and the queue is
left as it was. -/
def emit (env : TelemetryEnv) (ctx : HandlerCtx) (dt : PyDatetime)
    (queue : List QueueItem) (message : Message) : Except PyError (List QueueItem) :=
  match emitAttempt env ctx dt queue message with
  | .ok (q, _) => .ok q
  | .error _ => .ok queue

theorem validate_message_ok_true_iff (env : TelemetryEnv) (m : Message) (s : Schema) :
    validate_message env m s = .ok true ↔ env.jsValidate m s = .ok () := by
  unfold validate_message
  cases h : env.jsValidate m s with
  | ok u => cases u; simp
  | error e =>
    by_cases he : e.isValidationError <;> simp [he]

/-- C7: for every message and schema, `validate_message` returns `true`
exactly when `jsonschema.validate` accepts the document and `false`
exactly when structural validation fails (a raised
`jsonschema.ValidationError`), and it raises nothing to its caller. -/
theorem validate_message_true_false_never_raises (env : TelemetryEnv)
    (m : Message) (s : Schema)
    (hjs : ∀ e, env.jsValidate m s = .error e → e.isValidationError = true) :
    ∃ b, validate_message env m s = .ok b ∧
      (b = true ↔ env.jsValidate m s = .ok ()) ∧
      (b = false ↔ ∃ e, env.jsValidate m s = .error e) := by
  unfold validate_message
  cases h : env.jsValidate m s with
  | ok u =>
    cases u
    exact ⟨true, rfl, by simp, by simp⟩
  | error e =>
    refine ⟨false, ?_, by simp, by simp⟩
    simp [hjs e h]

/-- C1: `emit` never raises — for every environment, handler identity,
instant, queue and message (well-formed or not, with anonymization or
validation failing arbitrarily) it returns normally — and the queue
either is left unchanged (the message was dropped) or receives exactly
the one enveloped message, and only when that message passed schema
validation. -/
theorem emit_never_raises_and_validation_gates_queue (env : TelemetryEnv)
    (ctx : HandlerCtx) (dt : PyDatetime) (queue : List QueueItem) (message : Message) :
    ∃ q', emit env ctx dt queue message = .ok q' ∧
      (q' = queue ∨ ∃ m, q' = queue ++ [QueueItem.msg m] ∧
        env.jsValidate m usage_statistics_record_schema = .ok ()) := by
  cases hev : lookupStr message "event" with
  | none =>
    exact ⟨queue, by simp [emit, emitAttempt, hev], Or.inl rfl⟩
  | some ev =>
    cases hm1 : (if jStrEq ev "data_context.__init__" then
        (build_init_payload env).map (fun p => pySet message "event_payload" p)
      else .ok message) with
    | error e =>
      exact ⟨queue, by simp [emit, emitAttempt, hev, hm1], Or.inl rfl⟩
    | ok m1 =>
      cases hv : validate_message env (build_envelope ctx dt m1)
          usage_statistics_record_schema with
      | error e =>
        exact ⟨queue, by simp [emit, emitAttempt, hev, hm1, hv], Or.inl rfl⟩
      | ok b =>
        cases b with
        | false =>
          exact ⟨queue, by simp [emit, emitAttempt, hev, hm1, hv], Or.inl rfl⟩
        | true =>
          refine ⟨queue ++ [QueueItem.msg (build_envelope ctx dt m1)],
            by simp [emit, emitAttempt, hev, hm1, hv],
            Or.inr ⟨build_envelope ctx dt m1, rfl, ?_⟩⟩
          exact (validate_message_ok_true_iff env _ _).mp hv

/-- C9: on a message whose `event` is the distinguished
`"data_context.__init__"`, `emit` first replaces `event_payload` with the
init payload — platform name, platform release, runtime version string,
and the three anonymized collections, each the in-order image of the
corresponding data-context collection under its anonymizer — and only
then envelopes and (when validation passes) enqueues the message. -/
theorem emit_init_event_populates_payload (env : TelemetryEnv) (ctx : HandlerCtx)
    (dt : PyDatetime) (queue : List QueueItem) (message : Message)
    (ds sts vos : List JValue)
    (hev : lookupStr message "event" = some (JValue.str "data_context.__init__"))
    (hds : mapE env.anonymizeDatasourceInfo env.datasources = .ok ds)
    (hst : mapE env.anonymizeStoreInfo env.stores = .ok sts)
    (hvo : mapE env.anonymizeValidationOperatorInfo env.validationOperators = .ok vos) :
    lookupStr (build_envelope ctx dt
        (pySet message "event_payload" (initPayloadObj env ds sts vos)))
      "event_payload" = some (initPayloadObj env ds sts vos) ∧
    (env.jsValidate (build_envelope ctx dt
        (pySet message "event_payload" (initPayloadObj env ds sts vos)))
        usage_statistics_record_schema = .ok () →
      emit env ctx dt queue message = .ok (queue ++ [QueueItem.msg
        (build_envelope ctx dt
          (pySet message "event_payload" (initPayloadObj env ds sts vos)))])) ∧
    ds.length = env.datasources.length ∧
    sts.length = env.stores.length ∧
    vos.length = env.validationOperators.length ∧
    (∀ i (h1 : i < env.datasources.length) (h2 : i < ds.length),
      env.anonymizeDatasourceInfo (env.datasources.get ⟨i, h1⟩) =
        .ok (ds.get ⟨i, h2⟩)) ∧
    (∀ i (h1 : i < env.stores.length) (h2 : i < sts.length),
      env.anonymizeStoreInfo (env.stores.get ⟨i, h1⟩) = .ok (sts.get ⟨i, h2⟩)) ∧
    (∀ i (h1 : i < env.validationOperators.length) (h2 : i < vos.length),
      env.anonymizeValidationOperatorInfo (env.validationOperators.get ⟨i, h1⟩) =
        .ok (vos.get ⟨i, h2⟩)) := by
  have hbip : build_init_payload env = .ok (initPayloadObj env ds sts vos) := by
    simp [build_init_payload, hds, hst, hvo]
  refine ⟨?_, ?_, (mapE_ok_length_and_get _ _ _ hds).1,
    (mapE_ok_length_and_get _ _ _ hst).1, (mapE_ok_length_and_get _ _ _ hvo).1,
    (mapE_ok_length_and_get _ _ _ hds).2, (mapE_ok_length_and_get _ _ _ hst).2,
    (mapE_ok_length_and_get _ _ _ hvo).2⟩
  · simp only [build_envelope]
    rw [lookupStr_pySet_ne _ _ _ _ (by decide), lookupStr_pySet_ne _ _ _ _ (by decide),
      lookupStr_pySet_ne _ _ _ _ (by decide), lookupStr_pySet_ne _ _ _ _ (by decide),
      lookupStr_pySet_ne _ _ _ _ (by decide), lookupStr_pySet_self]
  · intro hok
    have hvt := (validate_message_ok_true_iff env
      (build_envelope ctx dt
        (pySet message "event_payload" (initPayloadObj env ds sts vos)))
      usage_statistics_record_schema).mpr hok
    simp [emit, emitAttempt, hev, jStrEq, hbip, Except.map, hvt]

/-- A concrete environment whose collaborators all succeed and whose
schema validation accepts every document. -/
def envAccept : TelemetryEnv where
  platformSystem := "Linux"
  platformRelease := "5.4.0"
  versionInfo := "sys.version_info(major=3, minor=7, micro=4, releaselevel='final', serial=0)"
  datasources := ["my_datasource"]
  stores := [("expectations_store", "ExpectationsStore")]
  validationOperators := [("action_list_operator", "ActionListValidationOperator")]
  anonymizeDatasourceInfo := fun s => .ok (JValue.obj [("anonymized_name", JValue.str s)])
  anonymizeStoreInfo := fun p => .ok (JValue.obj [("anonymized_name", JValue.str p.1)])
  anonymizeValidationOperatorInfo :=
    fun p => .ok (JValue.obj [("anonymized_name", JValue.str p.1)])
  jsValidate := fun _ _ => .ok ()

/-- The same environment with a schema validation that rejects every
document (raising `jsonschema.ValidationError`). -/
def envReject : TelemetryEnv :=
  { envAccept with
    jsValidate := fun _ _ => .error (.validationError "message failed schema validation") }

/-- Witness for the C7 theorem: on an accepting validator the result is
`true`, on a rejecting validator the result is `false`; neither raises. -/
theorem validate_message_witness :
    (∃ b, validate_message envAccept [("event", JValue.str "e")]
        usage_statistics_record_schema = .ok b ∧
      (b = true ↔ envAccept.jsValidate [("event", JValue.str "e")]
        usage_statistics_record_schema = .ok ()) ∧
      (b = false ↔ ∃ e, envAccept.jsValidate [("event", JValue.str "e")]
        usage_statistics_record_schema = .error e)) ∧
    (∃ b, validate_message envReject [("event", JValue.str "e")]
        usage_statistics_record_schema = .ok b ∧
      (b = true ↔ envReject.jsValidate [("event", JValue.str "e")]
        usage_statistics_record_schema = .ok ()) ∧
      (b = false ↔ ∃ e, envReject.jsValidate [("event", JValue.str "e")]
        usage_statistics_record_schema = .error e)) := by
  constructor
  · exact validate_message_true_false_never_raises envAccept _ _
      (fun e h => by simp [envAccept] at h)
  · exact validate_message_true_false_never_raises envReject _ _
      (fun e h => by
        simp only [envReject, Except.error.injEq] at h
        rw [← h]
        rfl)

/-- Witness for the C9 theorem: a concrete init-event message in the
all-succeeding environment is enriched with the init payload, enveloped
and enqueued. -/
theorem emit_init_event_witness :
    lookupStr (build_envelope ⟨"dcid", "iid", "0.9.7"⟩ ⟨2020, 1, 2, 3, 4, 5, 678901⟩
        (pySet [("event", JValue.str "data_context.__init__"),
                ("event_payload", JValue.obj []), ("success", JValue.bool true)]
          "event_payload"
          (initPayloadObj envAccept
            [JValue.obj [("anonymized_name", JValue.str "my_datasource")]]
            [JValue.obj [("anonymized_name", JValue.str "expectations_store")]]
            [JValue.obj [("anonymized_name", JValue.str "action_list_operator")]])))
      "event_payload" = some (initPayloadObj envAccept
        [JValue.obj [("anonymized_name", JValue.str "my_datasource")]]
        [JValue.obj [("anonymized_name", JValue.str "expectations_store")]]
        [JValue.obj [("anonymized_name", JValue.str "action_list_operator")]]) ∧
    emit envAccept ⟨"dcid", "iid", "0.9.7"⟩ ⟨2020, 1, 2, 3, 4, 5, 678901⟩ []
      [("event", JValue.str "data_context.__init__"),
       ("event_payload", JValue.obj []), ("success", JValue.bool true)] =
    .ok ([] ++ [QueueItem.msg
      (build_envelope ⟨"dcid", "iid", "0.9.7"⟩ ⟨2020, 1, 2, 3, 4, 5, 678901⟩
        (pySet [("event", JValue.str "data_context.__init__"),
                ("event_payload", JValue.obj []), ("success", JValue.bool true)]
          "event_payload"
          (initPayloadObj envAccept
            [JValue.obj [("anonymized_name", JValue.str "my_datasource")]]
            [JValue.obj [("anonymized_name", JValue.str "expectations_store")]]
            [JValue.obj [("anonymized_name", JValue.str "action_list_operator")]])))]) := by
  have h := emit_init_event_populates_payload envAccept ⟨"dcid", "iid", "0.9.7"⟩
    ⟨2020, 1, 2, 3, 4, 5, 678901⟩ []
    [("event", JValue.str "data_context.__init__"),
     ("event_payload", JValue.obj []), ("success", JValue.bool true)]
    [JValue.obj [("anonymized_name", JValue.str "my_datasource")]]
    [JValue.obj [("anonymized_name", JValue.str "expectations_store")]]
    [JValue.obj [("anonymized_name", JValue.str "action_list_operator")]]
    rfl rfl rfl rfl
  exact ⟨h.1, h.2.1 rfl⟩

/-! ## The call interceptor (`usage_statistics_enabled_method`)

The wrapped call's host objects are modelled by `HostObj` (the
`_usage_statistics_handler` attribute is absent, holds a genuine handler,
or holds something of the wrong type); the wrapped operation is a
fallible state transformer on the positional-argument array, so an
operation may install the handler attribute during its own execution.
The wrapper's observable behaviour is its outcome (return value or
re-raised exception) plus the list of messages passed to
`handler.emit` — `emit` itself never raises (see
`emit_never_raises_and_validation_gates_queue`), so recording the calls
loses nothing. -/

inductive HandlerAttr where
  | handlerRef
  | notAHandler

/-- A host object, as seen through `getattr(obj, "_usage_statistics_handler", None)`. -/
structure HostObj where
  usageStatisticsHandler : Option HandlerAttr

/-- `get_usage_statistics_handler(args_array)`: `args_array[0]` (an empty
array raises `IndexError`, caught to `None`), then the defaulted
attribute read, then the `isinstance` check that discards a value of the
wrong type.  All failure paths produce `None`. -/
def get_usage_statistics_handler (argsArray : List HostObj) : Option Unit :=
  match argsArray with
  | [] => none
  | a :: _ =>
      match a.usageStatisticsHandler with
      | some HandlerAttr.handlerRef => some ()
      | some HandlerAttr.notAHandler => none
      | none => none

/-- Modelled from the spec: `nested_update` is imported from
`great_expectations.core`, which is outside the reviewed sources; the
specification describes it as merging a payload contribution into the
event payload.  It is modelled as a mapping merge; none of the
properties verified here depend on the depth of the merge. -/
def nested_update (base upd : JValue) : JValue :=
  match base, upd with
  | JValue.obj b, JValue.obj u => JValue.obj (u.foldl (fun acc p => pySet acc p.1 p.2) b)
  | _, u => u

/-- The configuration captured by the decorator: event name, optional
pre-call payload function, optional post-call payload function, and the
wrapped operation `func` itself. -/
structure WrapCfg (ρ : Type) where
  eventName : String
  argsPayloadFn : Option (List HostObj → Except PyError JValue)
  resultPayloadFn : Option (ρ → Except PyError JValue)
  func : List HostObj → Except PyError (List HostObj × ρ)

/-- The pre-call step `nested_update(event_payload, args_payload_fn(*args, **kwargs))`
applied to the initially empty payload (skipped when no function is
configured). -/
def argsStage {ρ : Type} (cfg : WrapCfg ρ) (args : List HostObj) : Except PyError JValue :=
  match cfg.argsPayloadFn with
  | none => .ok (JValue.obj [])
  | some f => (f args).map (fun contrib => nested_update (JValue.obj []) contrib)

/-- The post-call step `nested_update(event_payload, result_payload_fn(result))`
(skipped when no function is configured). -/
def resultStage {ρ : Type} (cfg : WrapCfg ρ) (payload : JValue) (v : ρ) :
    Except PyError JValue :=
  match cfg.resultPayloadFn with
  | none => .ok payload
  | some g => (g v).map (fun contrib => nested_update payload contrib)

/-- The message dict as the wrapper builds it:
`{"event_payload": payload, "event": event_name}` followed by the later
`message["success"] = ...` write. -/
def mkMessage (name : String) (payload : JValue) (success : Bool) : Message :=
  [("event_payload", payload), ("event", JValue.str name),
   ("success", JValue.bool success)]

/-- What a single interceptor call produces: the caller-visible outcome
and the messages handed to `handler.emit`. -/
structure WrapOutcome (ρ : Type) where
  result : Except PyError ρ
  emitted : List Message

/-- `usage_statistics_wrapped_method`: pre-call payload merge, the
wrapped call, handler resolution from the (possibly mutated) first
positional argument only after the call returns, post-call payload
merge, then emission.  `handler` is still `None` in the `except` block
when the wrapped operation itself raised — resolution has not happened
yet — so the failure emission can only occur for an exception raised by
the post-call merge. -/
def usage_statistics_wrapped_method {ρ : Type} (cfg : WrapCfg ρ)
    (args : List HostObj) : WrapOutcome ρ :=
  match argsStage cfg args with
  | .error e => ⟨.error e, []⟩
  | .ok payload1 =>
      match cfg.func args with
      | .error e => ⟨.error e, []⟩
      | .ok (args', v) =>
          match resultStage cfg payload1 v with
          | .error e =>
              ⟨.error e,
                if (get_usage_statistics_handler args').isSome then
                  [mkMessage cfg.eventName payload1 false]
                else []⟩
          | .ok payload2 =>
              ⟨.ok v,
                if (get_usage_statistics_handler args').isSome then
                  [mkMessage cfg.eventName payload2 true]
                else []⟩

/-- C2 counterexample: a wrapped operation that raises, called on a host
object that does carry a resolvable dispatcher.  The caller observes the
exception unchanged, but no failure-flagged message is emitted, because
the dispatcher is only resolved after a normal return — contradicting
the claim that a resolvable dispatcher guarantees a `success = false`
emission before the re-raise. -/
theorem interceptor_failure_claim_counterexample :
    get_usage_statistics_handler [⟨some HandlerAttr.handlerRef⟩] = some () ∧
    (usage_statistics_wrapped_method
      (⟨"ev", none, none, fun _ => .error (.typeError "boom")⟩ : WrapCfg Unit)
      [⟨some HandlerAttr.handlerRef⟩]).result = .error (.typeError "boom") ∧
    (usage_statistics_wrapped_method
      (⟨"ev", none, none, fun _ => .error (.typeError "boom")⟩ : WrapCfg Unit)
      [⟨some HandlerAttr.handlerRef⟩]).emitted = [] :=
  ⟨rfl, rfl, rfl⟩

/-- C2 (amended): when the wrapped operation raises `E` (the pre-call
payload step having succeeded), the interceptor re-raises exactly `E`,
and no message is emitted — even when a dispatcher was resolvable from
the first positional argument — because the dispatcher is resolved only
after a normal return; a failure-flagged emission occurs only when the
post-return payload merge raises. -/
theorem interceptor_reraises_func_exception_unchanged {ρ : Type} (cfg : WrapCfg ρ)
    (args : List HostObj) (p : JValue) (E : PyError)
    (hargs : argsStage cfg args = .ok p)
    (hf : cfg.func args = .error E) :
    (usage_statistics_wrapped_method cfg args).result = .error E ∧
    (usage_statistics_wrapped_method cfg args).emitted = [] := by
  simp [usage_statistics_wrapped_method, hargs, hf]

/-- Witness for the amended C2 theorem at a concrete raising operation on
a host object carrying a dispatcher. -/
theorem interceptor_reraises_func_exception_witness :
    (usage_statistics_wrapped_method
      (⟨"op", none, none, fun _ => .error (.other "E")⟩ : WrapCfg Nat)
      [⟨some HandlerAttr.handlerRef⟩]).result = .error (.other "E") ∧
    (usage_statistics_wrapped_method
      (⟨"op", none, none, fun _ => .error (.other "E")⟩ : WrapCfg Nat)
      [⟨some HandlerAttr.handlerRef⟩]).emitted = [] :=
  interceptor_reraises_func_exception_unchanged
    (⟨"op", none, none, fun _ => .error (.other "E")⟩ : WrapCfg Nat)
    [⟨some HandlerAttr.handlerRef⟩] (JValue.obj []) (.other "E") rfl rfl

/-- C4 counterexample: a wrapped operation that returns `7` without
raising, combined with a post-call payload function that raises.  The
caller does not receive `7`: the post-call exception propagates, and a
`success = false` message is emitted (the dispatcher having been
resolved by then) — contradicting the claim that a non-raising wrapped
operation always yields its value to the caller with a `success = true`
emission. -/
theorem interceptor_success_claim_counterexample :
    ((⟨"ev", none, some (fun _ => .error (.typeError "bad result payload")),
        fun a => .ok (a, 7)⟩ : WrapCfg Nat).func [⟨some HandlerAttr.handlerRef⟩] =
      .ok ([⟨some HandlerAttr.handlerRef⟩], 7)) ∧
    (usage_statistics_wrapped_method
      (⟨"ev", none, some (fun _ => .error (.typeError "bad result payload")),
        fun a => .ok (a, 7)⟩ : WrapCfg Nat)
      [⟨some HandlerAttr.handlerRef⟩]).result = .error (.typeError "bad result payload") ∧
    (usage_statistics_wrapped_method
      (⟨"ev", none, some (fun _ => .error (.typeError "bad result payload")),
        fun a => .ok (a, 7)⟩ : WrapCfg Nat)
      [⟨some HandlerAttr.handlerRef⟩]).result ≠ .ok 7 ∧
    (usage_statistics_wrapped_method
      (⟨"ev", none, some (fun _ => .error (.typeError "bad result payload")),
        fun a => .ok (a, 7)⟩ : WrapCfg Nat)
      [⟨some HandlerAttr.handlerRef⟩]).emitted =
      [mkMessage "ev" (JValue.obj []) false] :=
  ⟨rfl, rfl, fun h => Except.noConfusion h, rfl⟩

/-- C4 (amended): when the pre- and post-call payload steps succeed and
the wrapped operation returns `(args', v)` without raising, the caller
receives exactly `v`; the dispatcher is resolved from the first
positional argument of the post-call state `args'` (so an operation that
installs it during its own execution still has it resolved), and exactly
when one is resolved, a single `success = true` message is emitted. -/
theorem interceptor_returns_value_and_emits_success {ρ : Type} (cfg : WrapCfg ρ)
    (args args' : List HostObj) (v : ρ) (p1 p2 : JValue)
    (hargs : argsStage cfg args = .ok p1)
    (hf : cfg.func args = .ok (args', v))
    (hres : resultStage cfg p1 v = .ok p2) :
    (usage_statistics_wrapped_method cfg args).result = .ok v ∧
    (usage_statistics_wrapped_method cfg args).emitted =
      (if (get_usage_statistics_handler args').isSome then
        [mkMessage cfg.eventName p2 true] else []) ∧
    (∀ m ∈ (usage_statistics_wrapped_method cfg args).emitted,
      lookupStr m "success" = some (JValue.bool true)) := by
  refine ⟨?_, ?_, ?_⟩
  · simp [usage_statistics_wrapped_method, hargs, hf, hres]
  · simp [usage_statistics_wrapped_method, hargs, hf, hres]
  · intro m hm
    simp only [usage_statistics_wrapped_method, hargs, hf, hres] at hm
    by_cases hh : (get_usage_statistics_handler args').isSome
    · simp only [hh, if_true, List.mem_singleton] at hm
      subst hm
      rfl
    · simp [hh] at hm

/-- Witness for the amended C4 theorem: the host object starts without a
dispatcher and the wrapped operation installs one during its execution;
resolution happens after the return, so the success message is emitted
and the caller receives the original value. -/
theorem interceptor_returns_value_witness :
    get_usage_statistics_handler [⟨none⟩] = none ∧
    (usage_statistics_wrapped_method
      (⟨"op", none, none, fun _ => .ok ([⟨some HandlerAttr.handlerRef⟩], 42)⟩ :
        WrapCfg Nat) [⟨none⟩]).result = .ok 42 ∧
    (usage_statistics_wrapped_method
      (⟨"op", none, none, fun _ => .ok ([⟨some HandlerAttr.handlerRef⟩], 42)⟩ :
        WrapCfg Nat) [⟨none⟩]).emitted = [mkMessage "op" (JValue.obj []) true] := by
  have h := interceptor_returns_value_and_emits_success
    (⟨"op", none, none, fun _ => .ok ([⟨some HandlerAttr.handlerRef⟩], 42)⟩ : WrapCfg Nat)
    [⟨none⟩] [⟨some HandlerAttr.handlerRef⟩] 42 (JValue.obj []) (JValue.obj [])
    rfl rfl rfl
  exact ⟨rfl, h.1, by simpa using h.2.1⟩

/-! ## `send_usage_message` -/

/-- Python truthiness of a telemetry value (`event_payload or {}`). -/
def jTruthy : JValue → Bool
  | JValue.null => false
  | JValue.bool b => b
  | JValue.str s => if s == "" then false else true
  | JValue.arr xs => !xs.isEmpty
  | JValue.obj fs => !fs.isEmpty

/-- The message dict built by `send_usage_message`:
`{"event": event, "event_payload": event_payload or {}, "success": success}`. -/
def sendMessageDict (event : String) (event_payload : Option JValue)
    (success : Option Bool) : Message :=
  [("event", JValue.str event),
   ("event_payload", match event_payload with
     | some p => if jTruthy p then p else JValue.obj []
     | none => JValue.obj []),
   ("success", match success with
     | some b => JValue.bool b
     | none => JValue.null)]

/-- A positional argument of a call to the bound method
`UsageStatisticsHandler.emit`. -/
inductive EmitArg where
  | messageArg (m : Message)
  | schemaArg (s : Option Schema)

/-- Calling the bound method `UsageStatisticsHandler.emit` with a
positional-argument list.  `emit` declares exactly one parameter besides
`self` (`def emit(self, message)`), so Python raises `TypeError` before
the body runs whenever the argument count differs from one; with exactly
one message argument the body (`emit`) runs.  (A single non-message
argument never arises in this module.) -/
def callEmit (env : TelemetryEnv) (ctx : HandlerCtx) (dt : PyDatetime)
    (queue : List QueueItem) (args : List EmitArg) : Except PyError (List QueueItem) :=
  match args with
  | [EmitArg.messageArg m] => emit env ctx dt queue m
  | _ => .error (.typeError "emit() takes 2 positional arguments but 3 were given")

/-- `send_usage_message`: builds the message dict, reads the defaulted
`_usage_statistics_handler` attribute (with no `isinstance` check — an
attribute of the wrong type leads to an `AttributeError` on `.emit`),
calls `handler.emit(message, payload_schema)` — two positional arguments
— and wraps everything in `except Exception: pass`. -/
def send_usage_message (env : TelemetryEnv) (ctx : HandlerCtx) (dt : PyDatetime)
    (queue : List QueueItem) (dataContext : HostObj) (event : String)
    (event_payload : Option JValue) (success : Option Bool)
    (payload_schema : Option Schema) : Except PyError (List QueueItem) :=
  match (match dataContext.usageStatisticsHandler with
    | none => Except.ok queue
    | some HandlerAttr.handlerRef =>
        callEmit env ctx dt queue
          [EmitArg.messageArg (sendMessageDict event event_payload success),
           EmitArg.schemaArg payload_schema]
    | some HandlerAttr.notAHandler => Except.error PyError.attributeError) with
  | .ok q => .ok q
  | .error _ => .ok queue

/-- C10: `send_usage_message` always returns normally with the queue
unchanged — no message is ever enqueued through it — and whenever a
handler is found on the data context, the internal
`handler.emit(message, payload_schema)` call passes two positional
arguments to a method accepting one, raising a `TypeError` that the
surrounding catch-all swallows. -/
theorem send_usage_message_never_enqueues (env : TelemetryEnv) (ctx : HandlerCtx)
    (dt : PyDatetime) (queue : List QueueItem) (dataContext : HostObj)
    (event : String) (event_payload : Option JValue) (success : Option Bool)
    (payload_schema : Option Schema) :
    send_usage_message env ctx dt queue dataContext event event_payload success
      payload_schema = .ok queue ∧
    (dataContext.usageStatisticsHandler = some HandlerAttr.handlerRef →
      callEmit env ctx dt queue
        [EmitArg.messageArg (sendMessageDict event event_payload success),
         EmitArg.schemaArg payload_schema] =
      .error (.typeError "emit() takes 2 positional arguments but 3 were given")) := by
  constructor
  · cases h : dataContext.usageStatisticsHandler with
    | none => simp [send_usage_message, h]
    | some attr => cases attr <;> simp [send_usage_message, h, callEmit]
  · intro _
    rfl

/-- Witness for the C10 theorem at a concrete call with a handler
present: the queue is untouched and the inner call is the arity
`TypeError`. -/
theorem send_usage_message_never_enqueues_witness :
    send_usage_message envAccept ⟨"dcid", "iid", "0.9.7"⟩ ⟨2020, 1, 2, 3, 4, 5, 678901⟩
      [] ⟨some HandlerAttr.handlerRef⟩ "cli.suite.edit" none (some true)
      (some "anonymized-usage-statistics-record-v1") = .ok [] ∧
    callEmit envAccept ⟨"dcid", "iid", "0.9.7"⟩ ⟨2020, 1, 2, 3, 4, 5, 678901⟩ []
      [EmitArg.messageArg (sendMessageDict "cli.suite.edit" none (some true)),
       EmitArg.schemaArg (some "anonymized-usage-statistics-record-v1")] =
      .error (.typeError "emit() takes 2 positional arguments but 3 were given") := by
  have h := send_usage_message_never_enqueues envAccept ⟨"dcid", "iid", "0.9.7"⟩
    ⟨2020, 1, 2, 3, 4, 5, 678901⟩ [] ⟨some HandlerAttr.handlerRef⟩ "cli.suite.edit"
    none (some true) (some "anonymized-usage-statistics-record-v1")
  exact ⟨h.1, h.2 rfl⟩
